import Mathlib

/-!
Shallow embedding of the CreedbotV2 ride-management core (final.py).

Conventions of the embedding:
* Mongo documents become Lean structures; rider and user ids are `String`
  (the code stringifies ObjectIds before comparisons).
* `datetime` values are modelled as `Int` day ordinals: the code only ever
  builds midnight datetimes, subtracts them (`.days`), adds `timedelta(days=k)`
  and compares them, all of which are exact at day granularity.
* A collection is a `List` of documents; `find_one` is `List.find?` (first
  match), `update_one` rewrites the first matching document.
* A Python call that would raise (e.g. subscripting `None`) is modelled by
  `Option`/`none`; functions that catch exceptions and return `False` return
  `false` there instead.
-/

/-- Legacy stats snapshot stored on a user document (`stats` field written by
`UserManager.create_user`). -/
structure Stats where
  sweeps : Nat
  leads : Nat
  running_pilots : Nat
  ride_marshals : Nat
  total_rides : Nat
deriving DecidableEq

/-- A user document, restricted to the fields the aggregation and eligibility
code reads. -/
structure User where
  id : String
  name : String
  phone : String
  is_existing_user : Bool
  stats : Stats
deriving DecidableEq

/-- The per-day role slot mapping (`roles` sub-document of a day). -/
structure Roles where
  lead : Option String
  sweep : Option String
  pilot : Option String
  pilot2 : Option String
deriving DecidableEq

/-- One day sub-record of a ride, as built by `RideManager.create_ride`. -/
structure Day where
  day : Nat
  date : Int
  roles : Roles
  has_second_pilot : Bool
  attendance : List String
deriving DecidableEq

/-- The ride-marshal snapshot captured from the creator at creation time. -/
structure RideMarshal where
  id : String
  name : String
  phone : String
deriving DecidableEq

/-- A ride document, restricted to the fields the claims touch. -/
structure Ride where
  ride_id : Nat
  name : String
  meeting_point : String
  meeting_time : String
  departure_time : String
  arrival_time : String
  start_date : Int
  end_date : Int
  description : String
  creator_id : String
  ride_marshal : RideMarshal
  status : String
  days : List Day
  participants : List String
deriving DecidableEq

/-- Database state: the `counters` document for `ride_id` (`none` when the
record is missing), the `users` collection and the `rides` collection. -/
structure DB where
  counter : Option Nat
  users : List User
  rides : List Ride
deriving DecidableEq

/-- Per-role occurrence counters of a participation snapshot
(`stats["roles"]` in `get_user_participation`). -/
structure RoleCounts where
  lead : Nat
  sweep : Nat
  pilot : Nat
  pilot2 : Nat
deriving DecidableEq

/-- An entry of the `recent_rides` list of a participation snapshot. -/
structure RecentRide where
  ride_id : Nat
  name : String
  date : Int
deriving DecidableEq

/-- The participation snapshot returned by
`RideManager.get_user_participation`. -/
structure Participation where
  total_rides_participated : Nat
  total_days_attended : Nat
  roles : RoleCounts
  recent_rides : List RecentRide
deriving DecidableEq

/-- The Mongo `$or` filter of `get_user_participation`: the ride matches when
the rider appears in `participants`, in some day's `attendance`, or in some
day's role slot. -/
def rideMatches (uid : String) (r : Ride) : Bool :=
  r.participants.contains uid ||
  r.days.any (fun d => d.attendance.contains uid) ||
  r.days.any (fun d => d.roles.lead == some uid) ||
  r.days.any (fun d => d.roles.sweep == some uid) ||
  r.days.any (fun d => d.roles.pilot == some uid) ||
  r.days.any (fun d => d.roles.pilot2 == some uid)

/-- The inner per-day loop body of `get_user_participation`: conditionally
increments `total_days_attended` and each role counter. -/
def dayStep (uid : String) (s : Participation) (d : Day) : Participation :=
  let s := if d.attendance.contains uid then
    { s with total_days_attended := s.total_days_attended + 1 } else s
  let s := if d.roles.lead == some uid then
    { s with roles := { s.roles with lead := s.roles.lead + 1 } } else s
  let s := if d.roles.sweep == some uid then
    { s with roles := { s.roles with sweep := s.roles.sweep + 1 } } else s
  let s := if d.roles.pilot == some uid then
    { s with roles := { s.roles with pilot := s.roles.pilot + 1 } } else s
  if d.roles.pilot2 == some uid then
    { s with roles := { s.roles with pilot2 := s.roles.pilot2 + 1 } } else s

/-- The per-ride loop body of `get_user_participation`: bumps
`total_rides_participated`, folds over the days, then appends to
`recent_rides` when the ride ended within the last 30 days
(`ride['end_date'] >= utcnow() - timedelta(days=30)`). -/
def rideStep (uid : String) (now : Int) (s : Participation) (r : Ride) :
    Participation :=
  let s := { s with
    total_rides_participated := s.total_rides_participated + 1 }
  let s := r.days.foldl (dayStep uid) s
  if now - 30 ≤ r.end_date then
    { s with recent_rides :=
        s.recent_rides ++ [⟨r.ride_id, r.name, r.start_date⟩] }
  else s

/-- The zero-initialised `stats` dictionary of `get_user_participation`. -/
def initParticipation : Participation :=
  { total_rides_participated := 0
    total_days_attended := 0
    roles := { lead := 0, sweep := 0, pilot := 0, pilot2 := 0 }
    recent_rides := [] }

/-- `RideManager.get_user_participation`: the Mongo query returns the rides
matching the `$or` filter, and the loop accumulates the snapshot. -/
def getUserParticipation (uid : String) (rides : List Ride) (now : Int) :
    Participation :=
  (rides.filter (rideMatches uid)).foldl (rideStep uid now) initParticipation

/-- `find_one` on the users collection by `_id`. -/
def findUser (users : List User) (uid : String) : Option User :=
  users.find? (fun u => u.id == uid)

/-- `Dashboard._calculate_total_rides`: legacy `total_rides` is added to the
live `total_days_attended` only when `is_existing_user` is set; `none` models
the raise when the user document is missing. -/
def calculateTotalRides (users : List User) (rides : List Ride) (now : Int)
    (uid : String) : Option Nat :=
  match findUser users uid with
  | none => none
  | some user =>
    let current := (getUserParticipation uid rides now).total_days_attended
    if user.is_existing_user then some (user.stats.total_rides + current)
    else some current

/-- The `stats` sub-dictionary of the value returned by
`Dashboard._get_eligibility_status`. -/
structure EligibilityStats where
  total_rides : Nat
  sweeps : Nat
  leads : Nat
  running_pilots : Nat
deriving DecidableEq

/-- The eligibility verdict returned by `Dashboard._get_eligibility_status`. -/
structure Eligibility where
  sweep_eligible : Bool
  lead_eligible : Bool
  rp_eligible : Bool
  stats : EligibilityStats
deriving DecidableEq

/-- `Dashboard._get_eligibility_status`: note that `total_sweeps`,
`total_leads` and `running_pilots` add the stored legacy fields
unconditionally — there is no `is_existing_user` branch here; only
`total_rides` (via `_calculate_total_rides`) respects the flag. -/
def getEligibilityStatus (users : List User) (rides : List Ride) (now : Int)
    (uid : String) : Option Eligibility :=
  match findUser users uid with
  | none => none
  | some user =>
    let stats := user.stats
    let participation := getUserParticipation uid rides now
    match calculateTotalRides users rides now uid with
    | none => none
    | some total_rides =>
      let total_sweeps := stats.sweeps + participation.roles.sweep
      let total_leads := stats.leads + participation.roles.lead
      some
        { sweep_eligible := decide (total_rides ≥ 10)
          lead_eligible := decide (total_sweeps ≥ 3)
          rp_eligible := decide (total_sweeps ≥ 3) && decide (total_leads ≥ 3)
          stats :=
            { total_rides := total_rides
              sweeps := total_sweeps
              leads := total_leads
              running_pilots := stats.running_pilots +
                participation.roles.pilot + participation.roles.pilot2 } }

/-- The combined stats dictionary displayed by `Dashboard._show_rider_stats`. -/
structure CombinedStats where
  total_rides : Nat
  leads : Nat
  sweeps : Nat
  running_pilots : Nat
  ride_marshals : Nat
deriving DecidableEq

/-- The combined-stats computation of `Dashboard._show_rider_stats` (the
function's display part is UI and is not modelled). It receives the user
document directly and calls `_calculate_total_rides` on the user's id. -/
def showRiderStatsCombined (users : List User) (rides : List Ride) (now : Int)
    (user : User) : Option CombinedStats :=
  match calculateTotalRides users rides now user.id with
  | none => none
  | some total_rides =>
    let participation := getUserParticipation user.id rides now
    let stats := user.stats
    if user.is_existing_user then
      some
        { total_rides := total_rides
          leads := stats.leads + participation.roles.lead
          sweeps := stats.sweeps + participation.roles.sweep
          running_pilots := stats.running_pilots +
            participation.roles.pilot + participation.roles.pilot2
          ride_marshals := stats.ride_marshals }
    else
      some
        { total_rides := participation.total_days_attended
          leads := participation.roles.lead
          sweeps := participation.roles.sweep
          running_pilots := participation.roles.pilot +
            participation.roles.pilot2
          ride_marshals := 0 }

/-- `DatabaseManager._ensure_ride_counter`: insert the counter document with
`seq = 200` when it is missing. Runs at manager initialisation. -/
def ensureRideCounter (db : DB) : DB :=
  match db.counter with
  | none => { db with counter := some 200 }
  | some _ => db

/-- `DatabaseManager.get_next_ride_id`: `find_one_and_update` with `$inc 1`
and `ReturnDocument.AFTER`, no upsert. When the counter document is missing
the call returns `None` and `counter['seq']` raises, modelled by `none`. -/
def getNextRideId (db : DB) : Option (Nat × DB) :=
  match db.counter with
  | none => none
  | some seq => some (seq + 1, { db with counter := some (seq + 1) })

/-- The day list built by the `for day in range(day_count)` loop of
`RideManager.create_ride`: `day_count = (end_date - start_date).days + 1`,
each day numbered `day + 1` and dated `start_date + timedelta(days=day)`,
with empty attendance and all role slots `None`. A negative or zero
`day_count` yields the empty list, exactly as `range` does. -/
def buildDays (start_date end_date : Int) : List Day :=
  (List.range (end_date - start_date + 1).toNat).map (fun day =>
    { day := day + 1
      date := start_date + day
      roles := { lead := none, sweep := none, pilot := none, pilot2 := none }
      has_second_pilot := false
      attendance := [] })

/-- `RideManager.create_ride`. Consumes a ride id from the counter, looks up
the creator (subscripting `None` raises, hence `Option`; the counter was
already consumed at that point), builds the day list and inserts the ride
document. No comparison of `start_date` and `end_date` is performed. -/
def createRide (db : DB) (name meeting_point meeting_time departure_time
    arrival_time : String) (start_date end_date : Int)
    (description creator_id : String) : DB × Option Ride :=
  match getNextRideId db with
  | none => (db, none)
  | some (ride_id, db) =>
    match findUser db.users creator_id with
    | none => (db, none)
    | some creator =>
      let days := buildDays start_date end_date
      let ride : Ride :=
        { ride_id := ride_id
          name := name
          meeting_point := meeting_point
          meeting_time := meeting_time
          departure_time := departure_time
          arrival_time := arrival_time
          start_date := start_date
          end_date := end_date
          description := description
          creator_id := creator_id
          ride_marshal :=
            { id := creator_id, name := creator.name, phone := creator.phone }
          status := "pending"
          days := days
          participants := [] }
      ({ db with rides := db.rides ++ [ride] }, some ride)

/-- `find_one` on the rides collection by `ride_id` (first match). -/
def findRide (rides : List Ride) (ride_id : Nat) : Option Ride :=
  rides.find? (fun r => r.ride_id == ride_id)

/-- Replace the first document matching `p` (the effect of Mongo
`update_one` on a single-key query). -/
def replaceFirst (p : Ride → Bool) (new : Ride) : List Ride → List Ride
  | [] => []
  | r :: rs => if p r then new :: rs else r :: replaceFirst p new rs

/-- Replace the element at a given index, leaving the rest unchanged
(the effect of `ride['days'][i] = ...` assignments). -/
def setAt (f : Day → Day) : Nat → List Day → List Day
  | _, [] => []
  | 0, d :: ds => f d :: ds
  | n + 1, d :: ds => d :: setAt f n ds

/-- `RideManager.update_ride_day`. Returns `false` when the ride is missing
or `day_number > len(days)`; otherwise overwrites the day's `attendance`,
`roles` and `has_second_pilot` at Python index `day_number - 1` and writes
the day list back. A `day_number` of `0` hits Python index `-1` (the last
day) when the list is non-empty, and raises `IndexError` (caught, `false`)
on an empty list. -/
def updateRideDay (rides : List Ride) (ride_id : Nat) (day_number : Nat)
    (attendance : List String) (roles : Roles) (has_second_pilot : Bool) :
    Bool × List Ride :=
  match findRide rides ride_id with
  | none => (false, rides)
  | some ride =>
    if day_number > ride.days.length then (false, rides)
    else if ride.days.isEmpty then (false, rides)
    else
      let idx := if day_number = 0 then ride.days.length - 1
        else day_number - 1
      let newDays := setAt (fun d =>
        { d with attendance := attendance, roles := roles,
                 has_second_pilot := has_second_pilot }) idx ride.days
      (true, replaceFirst (fun r => r.ride_id == ride_id)
        { ride with days := newDays } rides)

/-- `RideManager.add_participant`: append the rider to `participants` when
absent; report success whenever the ride exists. -/
def addParticipant (rides : List Ride) (ride_id : Nat) (user_id : String) :
    Bool × List Ride :=
  match findRide rides ride_id with
  | none => (false, rides)
  | some ride =>
    let participants := ride.participants
    if participants.contains user_id then (true, rides)
    else
      (true, replaceFirst (fun r => r.ride_id == ride_id)
        { ride with participants := participants ++ [user_id] } rides)

/-- `RideManager.remove_participant`: `list.remove` drops the first
occurrence when present; report success whenever the ride exists. -/
def removeParticipant (rides : List Ride) (ride_id : Nat) (user_id : String) :
    Bool × List Ride :=
  match findRide rides ride_id with
  | none => (false, rides)
  | some ride =>
    let participants := ride.participants
    if participants.contains user_id then
      (true, replaceFirst (fun r => r.ride_id == ride_id)
        { ride with participants := participants.erase user_id } rides)
    else (true, rides)

/-! ### Properties of the participation fold -/

lemma dayStep_trp (uid : String) (s : Participation) (d : Day) :
    (dayStep uid s d).total_rides_participated =
      s.total_rides_participated := by
  by_cases hA : uid ∈ d.attendance <;>
    cases hL : d.roles.lead == some uid <;>
    cases hS : d.roles.sweep == some uid <;>
    cases hP : d.roles.pilot == some uid <;>
    cases hQ : d.roles.pilot2 == some uid <;>
    simp [dayStep, hA, hL, hS, hP, hQ]

lemma dayStep_recent (uid : String) (s : Participation) (d : Day) :
    (dayStep uid s d).recent_rides = s.recent_rides := by
  by_cases hA : uid ∈ d.attendance <;>
    cases hL : d.roles.lead == some uid <;>
    cases hS : d.roles.sweep == some uid <;>
    cases hP : d.roles.pilot == some uid <;>
    cases hQ : d.roles.pilot2 == some uid <;>
    simp [dayStep, hA, hL, hS, hP, hQ]

lemma dayStep_tda (uid : String) (s : Participation) (d : Day) :
    (dayStep uid s d).total_days_attended =
      s.total_days_attended +
        (if d.attendance.contains uid then 1 else 0) := by
  by_cases hA : uid ∈ d.attendance <;>
    cases hL : d.roles.lead == some uid <;>
    cases hS : d.roles.sweep == some uid <;>
    cases hP : d.roles.pilot == some uid <;>
    cases hQ : d.roles.pilot2 == some uid <;>
    simp [dayStep, hA, hL, hS, hP, hQ]

lemma dayStep_lead (uid : String) (s : Participation) (d : Day) :
    (dayStep uid s d).roles.lead =
      s.roles.lead + (if d.roles.lead == some uid then 1 else 0) := by
  by_cases hA : uid ∈ d.attendance <;>
    cases hL : d.roles.lead == some uid <;>
    cases hS : d.roles.sweep == some uid <;>
    cases hP : d.roles.pilot == some uid <;>
    cases hQ : d.roles.pilot2 == some uid <;>
    simp [dayStep, hA, hL, hS, hP, hQ]

lemma dayStep_sweep (uid : String) (s : Participation) (d : Day) :
    (dayStep uid s d).roles.sweep =
      s.roles.sweep + (if d.roles.sweep == some uid then 1 else 0) := by
  by_cases hA : uid ∈ d.attendance <;>
    cases hL : d.roles.lead == some uid <;>
    cases hS : d.roles.sweep == some uid <;>
    cases hP : d.roles.pilot == some uid <;>
    cases hQ : d.roles.pilot2 == some uid <;>
    simp [dayStep, hA, hL, hS, hP, hQ]

lemma dayStep_pilot (uid : String) (s : Participation) (d : Day) :
    (dayStep uid s d).roles.pilot =
      s.roles.pilot + (if d.roles.pilot == some uid then 1 else 0) := by
  by_cases hA : uid ∈ d.attendance <;>
    cases hL : d.roles.lead == some uid <;>
    cases hS : d.roles.sweep == some uid <;>
    cases hP : d.roles.pilot == some uid <;>
    cases hQ : d.roles.pilot2 == some uid <;>
    simp [dayStep, hA, hL, hS, hP, hQ]

lemma dayStep_pilot2 (uid : String) (s : Participation) (d : Day) :
    (dayStep uid s d).roles.pilot2 =
      s.roles.pilot2 + (if d.roles.pilot2 == some uid then 1 else 0) := by
  by_cases hA : uid ∈ d.attendance <;>
    cases hL : d.roles.lead == some uid <;>
    cases hS : d.roles.sweep == some uid <;>
    cases hP : d.roles.pilot == some uid <;>
    cases hQ : d.roles.pilot2 == some uid <;>
    simp [dayStep, hA, hL, hS, hP, hQ]

lemma daysFold_trp (uid : String) (ds : List Day) (s : Participation) :
    (ds.foldl (dayStep uid) s).total_rides_participated =
      s.total_rides_participated := by
  induction ds generalizing s with
  | nil => rfl
  | cons d ds ih => rw [List.foldl_cons, ih, dayStep_trp]

lemma daysFold_recent (uid : String) (ds : List Day) (s : Participation) :
    (ds.foldl (dayStep uid) s).recent_rides = s.recent_rides := by
  induction ds generalizing s with
  | nil => rfl
  | cons d ds ih => rw [List.foldl_cons, ih, dayStep_recent]

lemma daysFold_tda (uid : String) (ds : List Day) (s : Participation) :
    (ds.foldl (dayStep uid) s).total_days_attended =
      s.total_days_attended +
        (ds.filter (fun d => d.attendance.contains uid)).length := by
  induction ds generalizing s with
  | nil => simp
  | cons d ds ih =>
    rw [List.foldl_cons, ih, dayStep_tda]
    by_cases h : uid ∈ d.attendance <;>
      (simp [List.filter_cons, h]
       try omega)

lemma daysFold_lead (uid : String) (ds : List Day) (s : Participation) :
    (ds.foldl (dayStep uid) s).roles.lead =
      s.roles.lead +
        (ds.filter (fun d => d.roles.lead == some uid)).length := by
  induction ds generalizing s with
  | nil => simp
  | cons d ds ih =>
    rw [List.foldl_cons, ih, dayStep_lead]
    by_cases h : (d.roles.lead == some uid) = true <;>
      (simp [List.filter_cons, h]
       try omega)

lemma daysFold_sweep (uid : String) (ds : List Day) (s : Participation) :
    (ds.foldl (dayStep uid) s).roles.sweep =
      s.roles.sweep +
        (ds.filter (fun d => d.roles.sweep == some uid)).length := by
  induction ds generalizing s with
  | nil => simp
  | cons d ds ih =>
    rw [List.foldl_cons, ih, dayStep_sweep]
    by_cases h : (d.roles.sweep == some uid) = true <;>
      (simp [List.filter_cons, h]
       try omega)

lemma daysFold_pilot (uid : String) (ds : List Day) (s : Participation) :
    (ds.foldl (dayStep uid) s).roles.pilot =
      s.roles.pilot +
        (ds.filter (fun d => d.roles.pilot == some uid)).length := by
  induction ds generalizing s with
  | nil => simp
  | cons d ds ih =>
    rw [List.foldl_cons, ih, dayStep_pilot]
    by_cases h : (d.roles.pilot == some uid) = true <;>
      (simp [List.filter_cons, h]
       try omega)

lemma daysFold_pilot2 (uid : String) (ds : List Day) (s : Participation) :
    (ds.foldl (dayStep uid) s).roles.pilot2 =
      s.roles.pilot2 +
        (ds.filter (fun d => d.roles.pilot2 == some uid)).length := by
  induction ds generalizing s with
  | nil => simp
  | cons d ds ih =>
    rw [List.foldl_cons, ih, dayStep_pilot2]
    by_cases h : (d.roles.pilot2 == some uid) = true <;>
      (simp [List.filter_cons, h]
       try omega)

/-- Number of days of a ride on which the rider is in the attendance set. -/
def attendedDays (uid : String) (r : Ride) : Nat :=
  (r.days.filter (fun d => d.attendance.contains uid)).length

/-- Number of days of a ride on which the rider occupies the lead slot. -/
def leadDays (uid : String) (r : Ride) : Nat :=
  (r.days.filter (fun d => d.roles.lead == some uid)).length

/-- Number of days of a ride on which the rider occupies the sweep slot. -/
def sweepDays (uid : String) (r : Ride) : Nat :=
  (r.days.filter (fun d => d.roles.sweep == some uid)).length

/-- Number of days of a ride on which the rider occupies the pilot slot. -/
def pilotDays (uid : String) (r : Ride) : Nat :=
  (r.days.filter (fun d => d.roles.pilot == some uid)).length

/-- Number of days of a ride on which the rider occupies the pilot2 slot. -/
def pilot2Days (uid : String) (r : Ride) : Nat :=
  (r.days.filter (fun d => d.roles.pilot2 == some uid)).length

lemma rideStep_trp (uid : String) (now : Int) (s : Participation) (r : Ride) :
    (rideStep uid now s r).total_rides_participated =
      s.total_rides_participated + 1 := by
  simp only [rideStep]
  split <;> simp [daysFold_trp]

lemma rideStep_tda (uid : String) (now : Int) (s : Participation) (r : Ride) :
    (rideStep uid now s r).total_days_attended =
      s.total_days_attended + attendedDays uid r := by
  simp only [rideStep, attendedDays]
  split <;> simp [daysFold_tda]

lemma rideStep_lead (uid : String) (now : Int) (s : Participation)
    (r : Ride) :
    (rideStep uid now s r).roles.lead = s.roles.lead + leadDays uid r := by
  simp only [rideStep, leadDays]
  split <;> simp [daysFold_lead]

lemma rideStep_sweep (uid : String) (now : Int) (s : Participation)
    (r : Ride) :
    (rideStep uid now s r).roles.sweep = s.roles.sweep + sweepDays uid r := by
  simp only [rideStep, sweepDays]
  split <;> simp [daysFold_sweep]

lemma rideStep_pilot (uid : String) (now : Int) (s : Participation)
    (r : Ride) :
    (rideStep uid now s r).roles.pilot = s.roles.pilot + pilotDays uid r := by
  simp only [rideStep, pilotDays]
  split <;> simp [daysFold_pilot]

lemma rideStep_pilot2 (uid : String) (now : Int) (s : Participation)
    (r : Ride) :
    (rideStep uid now s r).roles.pilot2 =
      s.roles.pilot2 + pilot2Days uid r := by
  simp only [rideStep, pilot2Days]
  split <;> simp [daysFold_pilot2]

lemma rideStep_recent (uid : String) (now : Int) (s : Participation)
    (r : Ride) :
    (rideStep uid now s r).recent_rides =
      s.recent_rides ++
        (if now - 30 ≤ r.end_date then
          [RecentRide.mk r.ride_id r.name r.start_date] else []) := by
  simp only [rideStep]
  split <;> simp [daysFold_recent]

lemma ridesFold_trp (uid : String) (now : Int) (l : List Ride)
    (s : Participation) :
    (l.foldl (rideStep uid now) s).total_rides_participated =
      s.total_rides_participated + l.length := by
  induction l generalizing s with
  | nil => simp
  | cons r l ih => rw [List.foldl_cons, ih, rideStep_trp]; simp; omega

lemma ridesFold_tda (uid : String) (now : Int) (l : List Ride)
    (s : Participation) :
    (l.foldl (rideStep uid now) s).total_days_attended =
      s.total_days_attended + (l.map (attendedDays uid)).sum := by
  induction l generalizing s with
  | nil => simp
  | cons r l ih => rw [List.foldl_cons, ih, rideStep_tda]; simp; omega

lemma ridesFold_lead (uid : String) (now : Int) (l : List Ride)
    (s : Participation) :
    (l.foldl (rideStep uid now) s).roles.lead =
      s.roles.lead + (l.map (leadDays uid)).sum := by
  induction l generalizing s with
  | nil => simp
  | cons r l ih => rw [List.foldl_cons, ih, rideStep_lead]; simp; omega

lemma ridesFold_sweep (uid : String) (now : Int) (l : List Ride)
    (s : Participation) :
    (l.foldl (rideStep uid now) s).roles.sweep =
      s.roles.sweep + (l.map (sweepDays uid)).sum := by
  induction l generalizing s with
  | nil => simp
  | cons r l ih => rw [List.foldl_cons, ih, rideStep_sweep]; simp; omega

lemma ridesFold_pilot (uid : String) (now : Int) (l : List Ride)
    (s : Participation) :
    (l.foldl (rideStep uid now) s).roles.pilot =
      s.roles.pilot + (l.map (pilotDays uid)).sum := by
  induction l generalizing s with
  | nil => simp
  | cons r l ih => rw [List.foldl_cons, ih, rideStep_pilot]; simp; omega

lemma ridesFold_pilot2 (uid : String) (now : Int) (l : List Ride)
    (s : Participation) :
    (l.foldl (rideStep uid now) s).roles.pilot2 =
      s.roles.pilot2 + (l.map (pilot2Days uid)).sum := by
  induction l generalizing s with
  | nil => simp
  | cons r l ih => rw [List.foldl_cons, ih, rideStep_pilot2]; simp; omega

lemma ridesFold_recent (uid : String) (now : Int) (l : List Ride)
    (s : Participation) :
    (l.foldl (rideStep uid now) s).recent_rides =
      s.recent_rides ++
        ((l.filter (fun r => decide (now - 30 ≤ r.end_date))).map
          (fun r => RecentRide.mk r.ride_id r.name r.start_date)) := by
  induction l generalizing s with
  | nil => simp
  | cons r l ih =>
    rw [List.foldl_cons, ih, rideStep_recent]
    by_cases h : now ≤ r.end_date + 30
    · simp [List.filter_cons, h, show now - 30 ≤ r.end_date from by omega]
    · simp [List.filter_cons, h,
        show ¬(now - 30 ≤ r.end_date) from by omega]

lemma getUserParticipation_trp (uid : String) (rides : List Ride)
    (now : Int) :
    (getUserParticipation uid rides now).total_rides_participated =
      (rides.filter (rideMatches uid)).length := by
  simp [getUserParticipation, ridesFold_trp, initParticipation]

lemma getUserParticipation_tda (uid : String) (rides : List Ride)
    (now : Int) :
    (getUserParticipation uid rides now).total_days_attended =
      ((rides.filter (rideMatches uid)).map (attendedDays uid)).sum := by
  simp [getUserParticipation, ridesFold_tda, initParticipation]

lemma getUserParticipation_lead (uid : String) (rides : List Ride)
    (now : Int) :
    (getUserParticipation uid rides now).roles.lead =
      ((rides.filter (rideMatches uid)).map (leadDays uid)).sum := by
  simp [getUserParticipation, ridesFold_lead, initParticipation]

lemma getUserParticipation_sweep (uid : String) (rides : List Ride)
    (now : Int) :
    (getUserParticipation uid rides now).roles.sweep =
      ((rides.filter (rideMatches uid)).map (sweepDays uid)).sum := by
  simp [getUserParticipation, ridesFold_sweep, initParticipation]

lemma getUserParticipation_pilot (uid : String) (rides : List Ride)
    (now : Int) :
    (getUserParticipation uid rides now).roles.pilot =
      ((rides.filter (rideMatches uid)).map (pilotDays uid)).sum := by
  simp [getUserParticipation, ridesFold_pilot, initParticipation]

lemma getUserParticipation_pilot2 (uid : String) (rides : List Ride)
    (now : Int) :
    (getUserParticipation uid rides now).roles.pilot2 =
      ((rides.filter (rideMatches uid)).map (pilot2Days uid)).sum := by
  simp [getUserParticipation, ridesFold_pilot2, initParticipation]

lemma getUserParticipation_recent (uid : String) (rides : List Ride)
    (now : Int) :
    (getUserParticipation uid rides now).recent_rides =
      (((rides.filter (rideMatches uid)).filter
          (fun r => decide (now - 30 ≤ r.end_date))).map
        (fun r => RecentRide.mk r.ride_id r.name r.start_date)) := by
  simp [getUserParticipation, ridesFold_recent, initParticipation]

/-! ### Claims C1 - C4: stats combination and eligibility -/

/-- A stored user document with `is_existing_user = false` but non-zero
legacy stats fields (as could be left behind by the predecessor system or a
partial migration). -/
def nonLegacyStoredUser : User :=
  { id := "u1", name := "N", phone := "1", is_existing_user := false
    stats := { sweeps := 3, leads := 2, running_pilots := 1
               ride_marshals := 5, total_rides := 7 } }

/-- C1: for a rider whose `is_existing_user` flag is false, the combined
stats used by the eligibility computation and the rider-stats view are
claimed to equal the live participation snapshot alone. The code violates
this in `_get_eligibility_status`: with zero live participation and stored
legacy `sweeps = 3`, the eligibility computation reports combined sweeps 3
and `lead_eligible = true`, while `_show_rider_stats` (which does branch on
the flag) reports combined sweeps 0 for the same rider. -/
theorem c1_eligibility_legacy_leak :
    nonLegacyStoredUser.is_existing_user = false ∧
    (getUserParticipation "u1" [] 0).roles.sweep = 0 ∧
    (getUserParticipation "u1" [] 0).roles.lead = 0 ∧
    (getEligibilityStatus [nonLegacyStoredUser] [] 0 "u1").map
      (fun e => e.stats.sweeps) = some 3 ∧
    (getEligibilityStatus [nonLegacyStoredUser] [] 0 "u1").map
      (fun e => e.stats.leads) = some 2 ∧
    (getEligibilityStatus [nonLegacyStoredUser] [] 0 "u1").map
      (fun e => e.lead_eligible) = some true ∧
    (showRiderStatsCombined [nonLegacyStoredUser] [] 0
        nonLegacyStoredUser).map (fun c => c.sweeps) = some 0 ∧
    (showRiderStatsCombined [nonLegacyStoredUser] [] 0
        nonLegacyStoredUser).map (fun c => c.leads) = some 0 := by
  decide

/-- C2: `_calculate_total_rides` returns legacy `total_rides` plus the live
`total_days_attended` when `is_existing_user` is true, and exactly the live
`total_days_attended` when it is false. -/
theorem c2_total_rides_formula (users : List User) (rides : List Ride)
    (now : Int) (uid : String) (user : User)
    (hu : findUser users uid = some user) :
    (user.is_existing_user = true →
      calculateTotalRides users rides now uid =
        some (user.stats.total_rides +
          (getUserParticipation uid rides now).total_days_attended)) ∧
    (user.is_existing_user = false →
      calculateTotalRides users rides now uid =
        some ((getUserParticipation uid rides now).total_days_attended)) := by
  constructor <;> intro h <;> simp [calculateTotalRides, hu, h]

/-- A migrated rider with legacy `total_rides = 7`. -/
def legacyRider : User :=
  { id := "u1", name := "N", phone := "1", is_existing_user := true
    stats := { sweeps := 1, leads := 2, running_pilots := 0
               ride_marshals := 0, total_rides := 7 } }

/-- A two-day ride on which `u1` attends both days. -/
def twoDayAttendedRide : Ride :=
  { ride_id := 201, name := "R", meeting_point := "M"
    meeting_time := "08:00", departure_time := "08:30"
    arrival_time := "18:00", start_date := 0, end_date := 1
    description := "d", creator_id := "c1"
    ride_marshal := { id := "c1", name := "C", phone := "9" }
    status := "pending"
    days :=
      [ { day := 1, date := 0
          roles := { lead := none, sweep := none, pilot := none
                     pilot2 := none }
          has_second_pilot := false, attendance := ["u1"] }
      , { day := 2, date := 1
          roles := { lead := none, sweep := none, pilot := none
                     pilot2 := none }
          has_second_pilot := false, attendance := ["u1"] } ]
    participants := ["u1"] }

/-- Witness for C2: the legacy rider with `total_rides = 7` attending 2
further days has combined total 9. -/
theorem c2_total_rides_formula_witness :
    calculateTotalRides [legacyRider] [twoDayAttendedRide] 50 "u1" =
      some 9 := by
  have h := (c2_total_rides_formula [legacyRider] [twoDayAttendedRide] 50
    "u1" legacyRider (by decide)).1 (by decide)
  rw [h]
  decide

/-- C3: the eligibility verdict of `_get_eligibility_status` is exactly the
threshold comparison on the combined stats it computes: sweep at
`total_rides >= 10`, lead at `sweeps >= 3`, running pilot at `sweeps >= 3`
and `leads >= 3`. -/
theorem c3_threshold_comparison (users : List User) (rides : List Ride)
    (now : Int) (uid : String) (e : Eligibility)
    (h : getEligibilityStatus users rides now uid = some e) :
    (e.sweep_eligible = true ↔ e.stats.total_rides ≥ 10) ∧
    (e.lead_eligible = true ↔ e.stats.sweeps ≥ 3) ∧
    (e.rp_eligible = true ↔ (e.stats.sweeps ≥ 3 ∧ e.stats.leads ≥ 3)) := by
  simp only [getEligibilityStatus] at h
  cases hu : findUser users uid with
  | none => rw [hu] at h; exact absurd h (by simp)
  | some user =>
    rw [hu] at h
    cases hc : calculateTotalRides users rides now uid with
    | none => rw [hc] at h; exact absurd h (by simp)
    | some total_rides =>
      rw [hc] at h
      simp only [Option.some.injEq] at h
      subst h
      refine ⟨?_, ?_, ?_⟩ <;>
        simp [decide_eq_true_iff, Bool.and_eq_true]

/-- The verdict computed for `legacyRider` with no live participation:
7 combined rides, 1 sweep, 2 leads — below every threshold. -/
def legacyRiderVerdict : Eligibility :=
  { sweep_eligible := false, lead_eligible := false, rp_eligible := false
    stats := { total_rides := 7, sweeps := 1, leads := 2
               running_pilots := 0 } }

/-- Witness for C3 at a concrete rider below all three thresholds. -/
theorem c3_threshold_comparison_witness :
    (legacyRiderVerdict.sweep_eligible = true ↔
      legacyRiderVerdict.stats.total_rides ≥ 10) ∧
    (legacyRiderVerdict.lead_eligible = true ↔
      legacyRiderVerdict.stats.sweeps ≥ 3) ∧
    (legacyRiderVerdict.rp_eligible = true ↔
      (legacyRiderVerdict.stats.sweeps ≥ 3 ∧
        legacyRiderVerdict.stats.leads ≥ 3)) :=
  c3_threshold_comparison [legacyRider] [] 0 "u1" legacyRiderVerdict
    (by decide)

/-- A one-day ride on which `u1` appears only in the day's lead slot: not
in attendance and not in `participants`. -/
def leadOnlyRide : Ride :=
  { ride_id := 202, name := "L", meeting_point := "M"
    meeting_time := "08:00", departure_time := "08:30"
    arrival_time := "18:00", start_date := 0, end_date := 0
    description := "d", creator_id := "c1"
    ride_marshal := { id := "c1", name := "C", phone := "9" }
    status := "pending"
    days :=
      [ { day := 1, date := 0
          roles := { lead := some "u1", sweep := none, pilot := none
                     pilot2 := none }
          has_second_pilot := false, attendance := [] } ]
    participants := [] }

/-- C4: the participation snapshot counts each matching ride exactly once
in `total_rides_participated`, one day per attendance-set membership in
`total_days_attended`, and each role slot independently once per day; in
particular a rider appearing only in one day's lead slot of one ride gets
`total_rides_participated = 1`, lead count 1 and `total_days_attended`
0. -/
theorem c4_participation_aggregation (uid : String) (rides : List Ride)
    (now : Int) :
    (getUserParticipation uid rides now).total_rides_participated =
      (rides.filter (rideMatches uid)).length ∧
    (getUserParticipation uid rides now).total_days_attended =
      ((rides.filter (rideMatches uid)).map (attendedDays uid)).sum ∧
    (getUserParticipation uid rides now).roles.lead =
      ((rides.filter (rideMatches uid)).map (leadDays uid)).sum ∧
    (getUserParticipation uid rides now).roles.sweep =
      ((rides.filter (rideMatches uid)).map (sweepDays uid)).sum ∧
    (getUserParticipation uid rides now).roles.pilot =
      ((rides.filter (rideMatches uid)).map (pilotDays uid)).sum ∧
    (getUserParticipation uid rides now).roles.pilot2 =
      ((rides.filter (rideMatches uid)).map (pilot2Days uid)).sum ∧
    (getUserParticipation "u1" [leadOnlyRide] 0).total_rides_participated
      = 1 ∧
    (getUserParticipation "u1" [leadOnlyRide] 0).roles.lead = 1 ∧
    (getUserParticipation "u1" [leadOnlyRide] 0).total_days_attended = 0 :=
  ⟨getUserParticipation_trp uid rides now,
   getUserParticipation_tda uid rides now,
   getUserParticipation_lead uid rides now,
   getUserParticipation_sweep uid rides now,
   getUserParticipation_pilot uid rides now,
   getUserParticipation_pilot2 uid rides now,
   by decide, by decide, by decide⟩

/-! ### Claims C5, C6: ride creation -/

/-- The ride creator on record for the creation scenarios. -/
def creatorUser : User :=
  { id := "c1", name := "C", phone := "9", is_existing_user := false
    stats := { sweeps := 0, leads := 0, running_pilots := 0
               ride_marshals := 0, total_rides := 0 } }

/-- A freshly initialised database: counter seeded, one user, no rides. -/
def freshDB : DB :=
  { counter := some 200, users := [creatorUser], rides := [] }

/-- Counterexample for C5: with `end_date = 9` strictly before
`start_date = 10`, `create_ride` does not reject the request — a ride
record is inserted, and its day range is empty. -/
theorem c5_counterexample :
    ((createRide freshDB "R" "M" "08:00" "09:00" "18:00" 10 9 "d"
        "c1").2.map (fun r => r.days)) = some [] ∧
    (createRide freshDB "R" "M" "08:00" "09:00" "18:00" 10 9 "d"
        "c1").1.rides.length = 1 := by
  decide

/-- C5 (amended): `create_ride` performs no `end_date >= start_date`
validation; when `end_date` is strictly before `start_date` the ride is
still created and appended to the collection, with an empty `days` list
(`(end_date - start_date).days + 1 <= 0` makes the day loop run zero
times). -/
theorem c5_no_date_validation (db : DB)
    (name mp mt dt at_ : String) (sd ed : Int) (desc cid : String)
    (seq : Nat) (creator : User)
    (h1 : db.counter = some seq)
    (h2 : findUser db.users cid = some creator)
    (h3 : ed < sd) :
    ∃ r, (createRide db name mp mt dt at_ sd ed desc cid).2 = some r ∧
      r.days = [] ∧
      (createRide db name mp mt dt at_ sd ed desc cid).1.rides =
        db.rides ++ [r] := by
  simp only [createRide, getNextRideId, h1, h2]
  refine ⟨_, rfl, ?_, rfl⟩
  simp only [buildDays]
  rw [Int.toNat_of_nonpos (by omega)]
  simp

/-- Witness for C5 (amended) at the concrete inverted range 10..9. -/
theorem c5_no_date_validation_witness :
    ∃ r, (createRide freshDB "R" "M" "08:00" "09:00" "18:00" 10 9 "d"
        "c1").2 = some r ∧
      r.days = [] ∧
      (createRide freshDB "R" "M" "08:00" "09:00" "18:00" 10 9 "d"
        "c1").1.rides = freshDB.rides ++ [r] :=
  c5_no_date_validation freshDB "R" "M" "08:00" "09:00" "18:00" 10 9 "d"
    "c1" 200 creatorUser rfl (by decide) (by decide)

/-- C6: for a valid range, `create_ride` builds exactly
`(end_date - start_date) + 1` day sub-records, numbered contiguously from
1, dated consecutively from `start_date`, each with empty attendance and
all four role slots null. -/
theorem c6_day_construction (db : DB)
    (name mp mt dt at_ : String) (sd ed : Int) (desc cid : String)
    (seq : Nat) (creator : User)
    (h1 : db.counter = some seq)
    (h2 : findUser db.users cid = some creator)
    (h3 : sd ≤ ed) :
    ∃ r, (createRide db name mp mt dt at_ sd ed desc cid).2 = some r ∧
      r.days.length = (ed - sd).toNat + 1 ∧
      ∀ i (h : i < r.days.length),
        (r.days.get ⟨i, h⟩).day = i + 1 ∧
        (r.days.get ⟨i, h⟩).date = sd + i ∧
        (r.days.get ⟨i, h⟩).attendance = [] ∧
        (r.days.get ⟨i, h⟩).roles =
          { lead := none, sweep := none, pilot := none, pilot2 := none } := by
  simp only [createRide, getNextRideId, h1, h2]
  refine ⟨_, rfl, ?_, ?_⟩
  · simp only [buildDays, List.length_map, List.length_range]
    omega
  · intro i h
    simp [buildDays]

/-- Witness for C6: the range 0..2 yields 3 days numbered 1, 2, 3 dated
0, 1, 2. -/
theorem c6_day_construction_witness :
    ∃ r, (createRide freshDB "R" "M" "08:00" "09:00" "18:00" 0 2 "d"
        "c1").2 = some r ∧
      r.days.length = ((2 : Int) - 0).toNat + 1 ∧
      ∀ i (h : i < r.days.length),
        (r.days.get ⟨i, h⟩).day = i + 1 ∧
        (r.days.get ⟨i, h⟩).date = 0 + i ∧
        (r.days.get ⟨i, h⟩).attendance = [] ∧
        (r.days.get ⟨i, h⟩).roles =
          { lead := none, sweep := none, pilot := none, pilot2 := none } :=
  c6_day_construction freshDB "R" "M" "08:00" "09:00" "18:00" 0 2 "d"
    "c1" 200 creatorUser rfl (by decide) (by decide)

/-! ### Claim C9: the recent-rides window -/

/-- A ride ending in the future relative to evaluation time 50, with `u1`
registered as a participant. -/
def futureRide : Ride :=
  { ride_id := 203, name := "F", meeting_point := "M"
    meeting_time := "08:00", departure_time := "08:30"
    arrival_time := "18:00", start_date := 90, end_date := 100
    description := "d", creator_id := "c1"
    ride_marshal := { id := "c1", name := "C", phone := "9" }
    status := "pending", days := [], participants := ["u1"] }

/-- Counterexample for C9: `futureRide` ends at time 100, after the
evaluation time 50 — not in the past 30-day window — yet it is appended to
`recent_rides`. -/
theorem c9_counterexample :
    futureRide.end_date > 50 ∧
    (getUserParticipation "u1" [futureRide] 50).recent_rides =
      [{ ride_id := 203, name := "F", date := 90 }] := by
  decide

/-- C9 (amended): a matching ride is appended to `recent_rides` iff
`end_date >= now - 30 days`; rides that ended more than 30 days ago are
excluded, but there is no upper bound, so rides ending in the future are
included. -/
theorem c9_recent_rides_window (uid : String) (rides : List Ride)
    (now : Int) :
    (getUserParticipation uid rides now).recent_rides =
      (((rides.filter (rideMatches uid)).filter
          (fun r => decide (now - 30 ≤ r.end_date))).map
        (fun r => RecentRide.mk r.ride_id r.name r.start_date)) :=
  getUserParticipation_recent uid rides now

/-! ### Claim C10: the ride-id counter -/

/-- Counterexample for C10: when the counter record is missing at the time
`get_next_ride_id` is invoked, the call fails (the `find_one_and_update`
result is `None` and subscripting it raises) instead of lazily creating
the record. -/
theorem c10_counterexample :
    getNextRideId { counter := none, users := [], rides := [] } = none :=
  rfl

/-- C10 (amended): the counter is seeded at the fixed baseline 200 by
`_ensure_ride_counter` (run at manager initialisation) when the record is
missing; `get_next_ride_id` atomically increments and returns it, so two
successive calls return distinct strictly increasing values; but a missing
counter record at call time makes `get_next_ride_id` itself fail rather
than lazily create the record. -/
theorem c10_counter_behaviour (db : DB) :
    (db.counter = none →
      ensureRideCounter db = { db with counter := some 200 } ∧
      getNextRideId db = none) ∧
    (∀ seq, db.counter = some seq →
      getNextRideId db =
        some (seq + 1, { db with counter := some (seq + 1) }) ∧
      ∀ db1, getNextRideId db = some (seq + 1, db1) →
        getNextRideId db1 =
          some (seq + 2, { db1 with counter := some (seq + 2) }) ∧
        seq + 1 < seq + 2) := by
  constructor
  · intro h
    exact ⟨by simp [ensureRideCounter, h], by simp [getNextRideId, h]⟩
  · intro seq h
    refine ⟨by simp [getNextRideId, h], ?_⟩
    intro db1 h1
    rw [getNextRideId, h] at h1
    simp only [Option.some.injEq, Prod.mk.injEq] at h1
    refine ⟨?_, by omega⟩
    rw [getNextRideId, ← h1.2]

/-- Witness for C10 (amended): seeding on the empty state and two calls
from the fresh counter returning 201 then 202. -/
theorem c10_counter_behaviour_witness :
    (ensureRideCounter { counter := none, users := [], rides := [] } =
      { counter := some 200, users := [], rides := [] } ∧
      getNextRideId { counter := none, users := [], rides := [] } =
        none) ∧
    (getNextRideId freshDB =
      some (201, { freshDB with counter := some 201 }) ∧
      ∀ db1, getNextRideId freshDB = some (201, db1) →
        getNextRideId db1 =
          some (202, { db1 with counter := some 202 }) ∧
        201 < 202) :=
  ⟨(c10_counter_behaviour { counter := none, users := [], rides := [] }).1
      rfl,
   (c10_counter_behaviour freshDB).2 200 rfl⟩

/-! ### Claims C7, C8: day updates and participant toggles -/

lemma setAt_length (f : Day → Day) :
    ∀ (n : Nat) (l : List Day), (setAt f n l).length = l.length := by
  intro n l
  induction l generalizing n with
  | nil => cases n <;> rfl
  | cons d ds ih => cases n with
    | zero => rfl
    | succ m => simp [setAt, ih]

lemma setAt_get?_ne (f : Day → Day) :
    ∀ (n : Nat) (l : List Day) (i : Nat), i ≠ n →
      (setAt f n l)[i]? = l[i]? := by
  intro n l
  induction l generalizing n with
  | nil => intro i _; cases n <;> rfl
  | cons d ds ih =>
    intro i hi
    cases n with
    | zero =>
      cases i with
      | zero => exact absurd rfl hi
      | succ j => simp [setAt]
    | succ m =>
      cases i with
      | zero => simp [setAt]
      | succ j =>
        simp only [setAt, List.getElem?_cons_succ]
        exact ih m j (fun h => hi (by rw [h]))

lemma setAt_get?_self (f : Day → Day) :
    ∀ (n : Nat) (l : List Day), (setAt f n l)[n]? = (l[n]?).map f := by
  intro n l
  induction l generalizing n with
  | nil => cases n <;> rfl
  | cons d ds ih => cases n with
    | zero => simp [setAt]
    | succ m => simp only [setAt, List.getElem?_cons_succ]; exact ih m

lemma find?_replaceFirst_self (p : Ride → Bool) (x : Ride)
    (hx : p x = true) :
    ∀ l : List Ride, (l.find? p).isSome →
      (replaceFirst p x l).find? p = some x := by
  intro l
  induction l with
  | nil => intro h; simp at h
  | cons r rs ih =>
    intro h
    by_cases hr : p r = true
    · simp only [replaceFirst, hr, if_true]
      rw [List.find?_cons_of_pos _ hx]
    · rw [List.find?_cons_of_neg _ (by simp [hr])] at h
      simp only [replaceFirst]
      rw [if_neg hr, List.find?_cons_of_neg _ (by simp [hr])]
      exact ih h

/-- C7: `update_ride_day` replaces the designated day's attendance, roles
and second-pilot flag wholesale and leaves every other day of the ride
unchanged; it returns `false` without raising when the ride does not exist
or `day_number` exceeds the ride's day count. -/
theorem c7_update_day (rides : List Ride) (ride_id : Nat)
    (day_number : Nat) (attendance : List String) (roles : Roles)
    (hsp : Bool) :
    (findRide rides ride_id = none →
      updateRideDay rides ride_id day_number attendance roles hsp =
        (false, rides)) ∧
    (∀ ride, findRide rides ride_id = some ride →
      day_number > ride.days.length →
      updateRideDay rides ride_id day_number attendance roles hsp =
        (false, rides)) ∧
    (∀ ride, findRide rides ride_id = some ride →
      1 ≤ day_number → day_number ≤ ride.days.length →
      (updateRideDay rides ride_id day_number attendance roles hsp).1 =
        true ∧
      ∃ newDays,
        findRide
          (updateRideDay rides ride_id day_number attendance roles
            hsp).2 ride_id = some { ride with days := newDays } ∧
        newDays.length = ride.days.length ∧
        (∀ i, i ≠ day_number - 1 → newDays[i]? = ride.days[i]?) ∧
        newDays[day_number - 1]? = (ride.days[day_number - 1]?).map
          (fun d => { d with attendance := attendance, roles := roles,
                             has_second_pilot := hsp })) := by
  refine ⟨?_, ?_, ?_⟩
  · intro h
    simp [updateRideDay, h]
  · intro ride hr hgt
    simp [updateRideDay, hr, hgt]
  · intro ride hr h1 h2
    have hne : ¬(day_number > ride.days.length) := by omega
    have hempty : ride.days.isEmpty = false := by
      cases hd : ride.days with
      | nil => rw [hd] at h2; simp at h2; omega
      | cons a as => rfl
    have hidx : (if day_number = 0 then ride.days.length - 1
        else day_number - 1) = day_number - 1 := by
      have : day_number ≠ 0 := by omega
      simp [this]
    have hr2 : rides.find? (fun r => r.ride_id == ride_id) = some ride :=
      hr
    have hp : (ride.ride_id == ride_id) = true := by
      simpa using List.find?_some hr2
    constructor
    · simp [updateRideDay, hr, hne, hempty]
    · refine ⟨setAt (fun d =>
        { d with attendance := attendance, roles := roles,
                 has_second_pilot := hsp }) (day_number - 1) ride.days,
        ?_, setAt_length _ _ _, fun i hi => setAt_get?_ne _ _ _ _ hi,
        setAt_get?_self _ _ _⟩
      simp only [updateRideDay, hr, hne, if_false, hempty,
        Bool.false_eq_true, hidx]
      exact find?_replaceFirst_self _ _ hp rides (by simp [hr2])

/-- A three-day ride with distinct attendance on each day, used to exercise
the single-day update. -/
def threeDayRide : Ride :=
  { ride_id := 204, name := "T", meeting_point := "M"
    meeting_time := "08:00", departure_time := "08:30"
    arrival_time := "18:00", start_date := 0, end_date := 2
    description := "d", creator_id := "c1"
    ride_marshal := { id := "c1", name := "C", phone := "9" }
    status := "pending"
    days :=
      [ { day := 1, date := 0
          roles := { lead := some "a", sweep := none, pilot := none
                     pilot2 := none }
          has_second_pilot := false, attendance := ["a"] }
      , { day := 2, date := 1
          roles := { lead := none, sweep := none, pilot := none
                     pilot2 := none }
          has_second_pilot := false, attendance := [] }
      , { day := 3, date := 2
          roles := { lead := none, sweep := some "b", pilot := none
                     pilot2 := none }
          has_second_pilot := false, attendance := ["b"] } ]
    participants := ["a", "b"] }

/-- The role map submitted in the C7 witness scenario. -/
def submittedRoles : Roles :=
  { lead := some "r1", sweep := some "r2", pilot := none, pilot2 := none }

/-- Witness for C7: updating day 2 of the three-day ride succeeds, leaves
days 1 and 3 unchanged and overwrites day 2 with the submitted state. -/
theorem c7_update_day_witness :
    (updateRideDay [threeDayRide] 204 2 ["r1", "r2"] submittedRoles
        false).1 = true ∧
    ∃ newDays,
      findRide (updateRideDay [threeDayRide] 204 2 ["r1", "r2"]
          submittedRoles false).2 204 =
        some { threeDayRide with days := newDays } ∧
      newDays.length = threeDayRide.days.length ∧
      (∀ i, i ≠ 2 - 1 → newDays[i]? = threeDayRide.days[i]?) ∧
      newDays[2 - 1]? = (threeDayRide.days[2 - 1]?).map
        (fun d => { d with attendance := ["r1", "r2"],
                           roles := submittedRoles,
                           has_second_pilot := false }) :=
  (c7_update_day [threeDayRide] 204 2 ["r1", "r2"] submittedRoles
    false).2.2 threeDayRide (by decide) (by decide) (by decide)

/-- C8: `add_participant` / `remove_participant` are idempotent
set-membership toggles on `participants`: both report success whenever the
ride exists; adding a present rider or removing an absent one leaves the
collection unchanged; and adding twice from an absent start leaves the
rider in the list exactly once. -/
theorem c8_participant_toggle (rides : List Ride) (ride_id : Nat)
    (uid : String) :
    (∀ ride, findRide rides ride_id = some ride →
      (addParticipant rides ride_id uid).1 = true ∧
      (removeParticipant rides ride_id uid).1 = true) ∧
    (∀ ride, findRide rides ride_id = some ride →
      uid ∈ ride.participants →
      addParticipant rides ride_id uid = (true, rides)) ∧
    (∀ ride, findRide rides ride_id = some ride →
      uid ∉ ride.participants →
      removeParticipant rides ride_id uid = (true, rides)) ∧
    (∀ ride, findRide rides ride_id = some ride →
      uid ∉ ride.participants →
      ∃ rides1 ride1,
        addParticipant rides ride_id uid = (true, rides1) ∧
        findRide rides1 ride_id = some ride1 ∧
        ride1.participants.count uid = 1 ∧
        addParticipant rides1 ride_id uid = (true, rides1)) := by
  refine ⟨?_, ?_, ?_, ?_⟩
  · intro ride hr
    constructor
    · simp only [addParticipant, hr]
      split <;> rfl
    · simp only [removeParticipant, hr]
      split <;> rfl
  · intro ride hr h
    simp [addParticipant, hr, h]
  · intro ride hr h
    simp [removeParticipant, hr, h]
  · intro ride hr h
    have hr2 : rides.find? (fun r => r.ride_id == ride_id) = some ride :=
      hr
    have hp : (ride.ride_id == ride_id) = true := by
      simpa using List.find?_some hr2
    have hadd : addParticipant rides ride_id uid =
        (true, replaceFirst (fun r => r.ride_id == ride_id)
          { ride with participants := ride.participants ++ [uid] }
          rides) := by
      simp [addParticipant, hr, h]
    have hfind : findRide (replaceFirst (fun r => r.ride_id == ride_id)
        { ride with participants := ride.participants ++ [uid] } rides)
        ride_id =
        some { ride with participants := ride.participants ++ [uid] } :=
      find?_replaceFirst_self _ _ hp rides (by simp [hr2])
    refine ⟨_, _, hadd, hfind, ?_, ?_⟩
    · rw [List.count_append]
      rw [List.count_eq_zero.mpr h]
      simp
    · simp [addParticipant, hfind]

/-- A ride that `x` has not yet joined. -/
def joinRide : Ride :=
  { ride_id := 205, name := "J", meeting_point := "M"
    meeting_time := "08:00", departure_time := "08:30"
    arrival_time := "18:00", start_date := 0, end_date := 0
    description := "d", creator_id := "c1"
    ride_marshal := { id := "c1", name := "C", phone := "9" }
    status := "pending", days := [], participants := ["a"] }

/-- Witness for C8: joining twice from an absent start leaves `x` in the
participants list exactly once, and the second call is a successful
no-op. -/
theorem c8_participant_toggle_witness :
    ∃ rides1 ride1,
      addParticipant [joinRide] 205 "x" = (true, rides1) ∧
      findRide rides1 205 = some ride1 ∧
      ride1.participants.count "x" = 1 ∧
      addParticipant rides1 205 "x" = (true, rides1) :=
  (c8_participant_toggle [joinRide] 205 "x").2.2.2 joinRide (by decide)
    (by decide)
